import Mathlib

/-!
Verification of the core client-side logic emitted by `build.py` of the
D3 season-guide generator: the gear advisory engine (`gearAdvice`), the
stat breakpoint evaluator (`statBreakpoints` / `updateStatCalculator`),
the progress aggregator (`updateProgress`), the reset/persistence layer
(`resetAll` / `saveState`), and the cross-reference merger
(`merge_boss_data`).  Each definition is a direct shallow embedding of
the corresponding source function.
-/

namespace D3Guide

/-- The boolean stat-presence flags read by `updateGearAdvice` from the
gear-checker checkboxes into the `has` object.  A key absent from the
object is `undefined`, hence falsy, so every flag is a `Bool` that
defaults to `false`. -/
structure Flags where
  socket : Bool := false
  sockets : Bool := false
  dex : Bool := false
  dmgpct : Bool := false
  ad : Bool := false
  cdr : Bool := false
  rcr : Bool := false
  vit : Bool := false
  lph : Bool := false
  chc : Bool := false
  chd : Bool := false
  skill : Bool := false
  allres : Bool := false
  life : Bool := false
  elite : Bool := false
  ele : Bool := false
  armor : Bool := false
  ms : Bool := false
  deriving DecidableEq

/-- An advice record `{ text, cls }` as returned by every
`gearAdvice.<slot>.getAdvice`.  `cls` is the qualitative tier:
`""` (none), `"good"`, or `"perfect"`. -/
structure Advice where
  text : String
  cls : String
  deriving DecidableEq

/-- `gearAdvice.mh.getAdvice` (build.py lines 367-375). -/
def mhGetAdvice (has : Flags) : Advice :=
  if !has.socket then ⟨"🎁 Ramaladnis Gift für Socket nutzen! Dann schlechtesten Stat rerolled.", ""⟩
  else if !has.dex then ⟨"❌ Dex fehlt → anderer Stat zu DEX rerolled", ""⟩
  else if !has.dmgpct && (has.vit || has.lph) then ⟨"🔄 " ++ (if has.vit then "Vit" else "LpH") ++ " → +10% Damage rerolled", ""⟩
  else if !has.dmgpct && !has.ad then ⟨"🔄 Schlechtesten Stat → +10% Damage rerolled", ""⟩
  else if has.vit || has.lph then ⟨"🔄 " ++ (if has.vit then "Vit" else "LpH") ++ " → Area Damage rerolled", "good"⟩
  else if has.socket && has.dex && has.dmgpct && has.ad then ⟨"✅ PERFEKT! Nichts rerolled nötig!", "perfect"⟩
  else ⟨"👍 Gute Stats! Optional: +AD oder CDR", "good"⟩

/-- `gearAdvice.oh.getAdvice` (build.py lines 379-386). -/
def ohGetAdvice (has : Flags) : Advice :=
  if !has.socket then ⟨"🎁 Ramaladnis Gift für Socket nutzen!", ""⟩
  else if !has.dex then ⟨"❌ Dex fehlt → rerolled zu DEX", ""⟩
  else if !has.dmgpct && (has.vit || has.lph) then ⟨"🔄 " ++ (if has.vit then "Vit" else "LpH") ++ " → +10% Damage", ""⟩
  else if has.vit || has.lph then ⟨"🔄 " ++ (if has.vit then "Vit" else "LpH") ++ " → Area Damage", "good"⟩
  else if has.socket && has.dex && has.dmgpct then ⟨"✅ Sehr gut! Optional: AD", "perfect"⟩
  else ⟨"👍 Okay Stats", "good"⟩

/-- `gearAdvice.helm.getAdvice` (build.py lines 390-399). -/
def helmGetAdvice (has : Flags) : Advice :=
  if !has.socket then ⟨"❌ Socket fehlt! → Reroll zu Socket (für Topaz = RCR!)", ""⟩
  else if !has.dex then ⟨"❌ Dex fehlt → rerolled zu DEX", ""⟩
  else if !has.chc && has.allres then ⟨"🔄 All Res → CHC 6% rerolled", ""⟩
  else if !has.chc && has.vit then ⟨"🔄 Vit → CHC 6% rerolled (Defense woanders holen)", ""⟩
  else if !has.chc then ⟨"🔄 Schlechtesten Stat → CHC 6%", ""⟩
  else if has.socket && has.dex && has.chc && has.skill then ⟨"✅ PERFEKT!", "perfect"⟩
  else if has.socket && has.dex && has.chc then ⟨"👍 Sehr gut! TR% wäre Bonus", "good"⟩
  else ⟨"👍 Okay", "good"⟩

/-- `gearAdvice.shoulders.getAdvice` (build.py lines 403-410). -/
def shouldersGetAdvice (has : Flags) : Advice :=
  if !has.dex then ⟨"❌ Dex fehlt → rerolled", ""⟩
  else if !has.rcr && has.life then ⟨"🔄 Life% → RCR 8% (Spirit Management!)", ""⟩
  else if !has.rcr && !has.cdr then ⟨"🔄 Defensiven Stat → RCR 8% oder CDR 8%", ""⟩
  else if has.dex && has.rcr && has.cdr && has.ad then ⟨"✅ PERFEKT!", "perfect"⟩
  else if has.dex && (has.rcr || has.cdr) then ⟨"👍 Gut! Vit/AllRes okay für Defense", "good"⟩
  else ⟨"👍 Okay", "good"⟩

/-- `gearAdvice.chest.getAdvice` (build.py lines 414-421). -/
def chestGetAdvice (has : Flags) : Advice :=
  if !has.sockets then ⟨"❌ 3 Sockets fehlen! → Reroll!", ""⟩
  else if !has.dex then ⟨"❌ Dex fehlt → rerolled", ""⟩
  else if !has.vit then ⟨"🔄 Schlechtesten Stat → Vit", ""⟩
  else if !has.allres && !has.elite && has.life then ⟨"🔄 Life% → All Res oder Elite DR%", ""⟩
  else if has.sockets && has.dex && has.vit && (has.allres || has.elite) then ⟨"✅ PERFEKT!", "perfect"⟩
  else ⟨"👍 Gut! Chest ist defensiv", "good"⟩

/-- `gearAdvice.gloves.getAdvice` (build.py lines 425-433). -/
def glovesGetAdvice (has : Flags) : Advice :=
  if !has.dex then ⟨"❌ Dex fehlt!", ""⟩
  else if !has.chc && !has.chd then ⟨"❌ CHC UND CHD fehlen! Gloves sind OFFENSIV! → CHC rerolled", ""⟩
  else if !has.chc then ⟨"🔄 Schlechtesten Stat → CHC 10%", ""⟩
  else if !has.chd && has.vit then ⟨"🔄 Vit → CHD 50% (Gloves = Offense!)", ""⟩
  else if !has.chd then ⟨"🔄 Schlechtesten Stat → CHD 50%", ""⟩
  else if has.dex && has.chc && has.chd && (has.rcr || has.ad) then ⟨"✅ PERFEKT!", "perfect"⟩
  else if has.dex && has.chc && has.chd then ⟨"👍 Core Stats da! 4. Stat: RCR/AD ideal", "good"⟩
  else ⟨"👍 Okay", "good"⟩

/-- `gearAdvice.bracers.getAdvice` (build.py lines 438-444). -/
def bracersGetAdvice (has : Flags) : Advice :=
  if !has.ele && !has.chc then ⟨"❌ Cold% UND CHC fehlen! → Cold% 20% rerolled (riesiger DMG Boost!)", ""⟩
  else if !has.ele then ⟨"🔄 Schlechtesten Stat → Cold% 20% (WICHTIG!)", ""⟩
  else if !has.chc then ⟨"🔄 Schlechtesten Stat → CHC 6%", ""⟩
  else if !has.dex then ⟨"🔄 → Dex", ""⟩
  else if has.ele && has.chc && has.dex && (has.vit || has.lph) then ⟨"✅ PERFEKT!", "perfect"⟩
  else ⟨"👍 Gut!", "good"⟩

/-- `gearAdvice.belt.getAdvice` (build.py lines 449-454). -/
def beltGetAdvice (has : Flags) : Advice :=
  if !has.dex then ⟨"❌ Dex fehlt", ""⟩
  else if !has.vit then ⟨"🔄 → Vit", ""⟩
  else if !has.allres && !has.life then ⟨"🔄 Schlechtesten → All Res oder Life%", ""⟩
  else if has.dex && has.vit && has.allres then ⟨"✅ PERFEKT! Belt ist rein defensiv", "perfect"⟩
  else ⟨"👍 Gut! Belt = Defense", "good"⟩

/-- `gearAdvice.pants.getAdvice` (build.py lines 459-465). -/
def pantsGetAdvice (has : Flags) : Advice :=
  if !has.sockets then ⟨"❌ 2 Sockets fehlen!", ""⟩
  else if !has.dex then ⟨"❌ Dex fehlt", ""⟩
  else if !has.vit then ⟨"🔄 → Vit", ""⟩
  else if !has.allres && !has.armor then ⟨"🔄 → All Res oder Armor", ""⟩
  else if has.sockets && has.dex && has.vit && has.allres then ⟨"✅ PERFEKT!", "perfect"⟩
  else ⟨"👍 Gut! Pants = Defense", "good"⟩

/-- `gearAdvice.boots.getAdvice` (build.py lines 470-476). -/
def bootsGetAdvice (has : Flags) : Advice :=
  if !has.dex then ⟨"❌ Dex fehlt", ""⟩
  else if has.ms then ⟨"🔄 Movement Speed → TR% 15%! (MS aus Paragon!)", ""⟩
  else if !has.skill then ⟨"🔄 Schlechtesten Stat → TR% 15% (mehr Damage!)", ""⟩
  else if !has.vit then ⟨"🔄 → Vit", ""⟩
  else if has.dex && has.vit && has.skill && has.allres then ⟨"✅ PERFEKT!", "perfect"⟩
  else ⟨"👍 Gut!", "good"⟩

/-- `gearAdvice.ring1.getAdvice` (build.py lines 481-487). -/
def ring1GetAdvice (has : Flags) : Advice :=
  if !has.socket then ⟨"❌ Socket fehlt! → IMMER zuerst Socket rerolled!", ""⟩
  else if !has.chc && !has.chd then ⟨"🔄 → CHC oder CHD", ""⟩
  else if has.socket && has.chc && has.chd then ⟨"✅ Top Stats! Dex/AD wäre Bonus", "perfect"⟩
  else if has.socket && (has.chc || has.chd) then ⟨"👍 Okay, Socket + 1 Crit Stat", "good"⟩
  else ⟨"👍 Socket da = nutzbar", "good"⟩

/-- `gearAdvice.ring2.getAdvice` (build.py lines 491-497). -/
def ring2GetAdvice (has : Flags) : Advice :=
  if !has.socket then ⟨"❌ Socket fehlt! → IMMER zuerst Socket!", ""⟩
  else if !has.chc && !has.chd then ⟨"🔄 → CHC oder CHD", ""⟩
  else if has.socket && has.chc && has.chd then ⟨"✅ Top Stats!", "perfect"⟩
  else if has.socket && (has.chc || has.chd) then ⟨"👍 Okay", "good"⟩
  else ⟨"👍 Socket da = nutzbar", "good"⟩

/-- `gearAdvice.amulet.getAdvice` (build.py lines 501-508). -/
def amuletGetAdvice (has : Flags) : Advice :=
  if !has.socket then ⟨"❌ Socket fehlt! → IMMER zuerst Socket für Legendary Gem!", ""⟩
  else if !has.ele && !has.chc && !has.chd then ⟨"🔄 → Cold% 20% (bester Stat für Ammy!)", ""⟩
  else if !has.chc && !has.chd then ⟨"🔄 → CHC 10% oder CHD 100%", ""⟩
  else if has.socket && has.ele && has.chc && has.chd then ⟨"✅ PERFEKT! Traumhaftes Amulet!", "perfect"⟩
  else if has.socket && ((has.ele && has.chc) || (has.ele && has.chd) || (has.chc && has.chd)) then ⟨"👍 Sehr gut! 3 gute Stats", "good"⟩
  else ⟨"👍 Socket da = nutzbar", "good"⟩

/-- The 13 gear slots of the `gearAdvice` table. -/
inductive Slot
  | mh | oh | helm | shoulders | chest | gloves | bracers
  | belt | pants | boots | ring1 | ring2 | amulet
  deriving DecidableEq

/-- The stat-category names appearing in the `gearAdvice` priority
lists and `has` flags. -/
inductive StatName
  | socket | sockets | dex | dmgpct | ad | cdr | rcr | vit | lph
  | chc | chd | skill | allres | life | elite | ele | armor | ms
  deriving DecidableEq

/-- Read the flag named `n` out of the `has` object. -/
def hasStat (f : Flags) : StatName → Bool
  | .socket => f.socket
  | .sockets => f.sockets
  | .dex => f.dex
  | .dmgpct => f.dmgpct
  | .ad => f.ad
  | .cdr => f.cdr
  | .rcr => f.rcr
  | .vit => f.vit
  | .lph => f.lph
  | .chc => f.chc
  | .chd => f.chd
  | .skill => f.skill
  | .allres => f.allres
  | .life => f.life
  | .elite => f.elite
  | .ele => f.ele
  | .armor => f.armor
  | .ms => f.ms

/-- Per-slot declared `priority` lists of the `gearAdvice` table. -/
def priority : Slot → List StatName
  | .mh => [.socket, .dex, .dmgpct, .ad]
  | .oh => [.socket, .dex, .dmgpct, .ad]
  | .helm => [.socket, .dex, .chc, .skill]
  | .shoulders => [.dex, .rcr, .cdr, .ad]
  | .chest => [.sockets, .dex, .vit, .allres]
  | .gloves => [.dex, .chc, .chd, .rcr]
  | .bracers => [.ele, .chc, .dex, .vit]
  | .belt => [.dex, .vit, .allres, .life]
  | .pants => [.sockets, .dex, .vit, .allres]
  | .boots => [.dex, .vit, .skill, .allres]
  | .ring1 => [.socket, .chc, .chd, .dex]
  | .ring2 => [.socket, .chc, .chd, .dex]
  | .amulet => [.socket, .ele, .chc, .chd]

/-- Dispatch to the per-slot `getAdvice` function, as `updateGearAdvice`
does via `gearAdvice[slot].getAdvice(has)`. -/
def getAdvice : Slot → Flags → Advice
  | .mh => mhGetAdvice
  | .oh => ohGetAdvice
  | .helm => helmGetAdvice
  | .shoulders => shouldersGetAdvice
  | .chest => chestGetAdvice
  | .gloves => glovesGetAdvice
  | .bracers => bracersGetAdvice
  | .belt => beltGetAdvice
  | .pants => pantsGetAdvice
  | .boots => bootsGetAdvice
  | .ring1 => ring1GetAdvice
  | .ring2 => ring2GetAdvice
  | .amulet => amuletGetAdvice

/-- Every stat in the slot's declared priority list is checked. -/
def allPriorityPresent (slot : Slot) (f : Flags) : Bool :=
  (priority slot).all (hasStat f)

/-! ## Stat Breakpoint Evaluator (`statBreakpoints` / `updateStatCalculator`) -/

/-- One entry of the `statBreakpoints` table: `{ min, good, perfect, max, unit }`. -/
structure Breakpoint where
  min : ℚ
  good : ℚ
  perfect : ℚ
  max : ℚ
  unit : String
  deriving DecidableEq

/-- The six tracked stats of the calculator, in declared order
cdr, rcr, chc, chd, cold, ad. -/
inductive StatKey
  | cdr | rcr | chc | chd | cold | ad
  deriving DecidableEq

/-- The `statBreakpoints` constant table (build.py lines 532-539). -/
def statBreakpoints : StatKey → Breakpoint
  | .cdr => ⟨45, 50, 55, 80, "%"⟩
  | .rcr => ⟨40, 50, 55, 80, "%"⟩
  | .chc => ⟨40, 50, 55, 65, "%"⟩
  | .chd => ⟨350, 450, 500, 600, "%"⟩
  | .cold => ⟨20, 40, 40, 40, "%"⟩
  | .ad => ⟨50, 100, 130, 150, "%"⟩

/-- One entry of the `statTips` table. -/
structure StatTip where
  low : String
  ok : String
  good : String
  deriving DecidableEq

/-- The `statTips` constant table (build.py lines 550-581). -/
def statTips : StatKey → StatTip
  | .cdr => ⟨"CDR zu niedrig! Epiphany hat keine Uptime. → CDR auf Shoulders, Gloves, Rings, Amulet, Paragon",
             "CDR okay, aber mehr wäre besser für Epiphany Uptime",
             "CDR perfekt! Epiphany hat fast 100% Uptime"⟩
  | .rcr => ⟨"RCR zu niedrig! Spirit Probleme! → Topaz in Helm, RCR auf Shoulders/Gloves, Paragon",
             "RCR okay, evtl. noch Spirit Probleme bei langen Fights",
             "RCR perfekt! Smooth Tempest Rush"⟩
  | .chc => ⟨"CHC zu niedrig! Damage sehr inkonsistent. → CHC auf Helm, Gloves, Bracers, Rings, Amulet",
             "CHC okay, Damage ist consistent genug",
             "CHC perfekt! Crits überall"⟩
  | .chd => ⟨"CHD zu niedrig! Crits sind schwach. → CHD auf Gloves, Rings, Amulet + Emeralds in Weapons",
             "CHD okay, guter Crit Damage",
             "CHD perfekt! Fette Crits!"⟩
  | .cold => ⟨"Cold% fehlt! → Cold% auf Bracers (20%) und Amulet (20%)",
              "Cold% nur auf einem Slot. Amulet oder Bracers fehlt",
              "Cold% perfekt! Max aus Bracers + Amulet"⟩
  | .ad => ⟨"Area Damage niedrig. → AD auf Shoulders, Gloves, Rings, Weapons, Paragon",
            "Area Damage okay für AoE",
            "Area Damage perfekt! Explosive AoE Kills"⟩

/-- The bar width computed by `updateStatCalculator`:
`Math.min(100, (val / bp.max) * 100)` (build.py line 597). -/
def statPercent (stat : StatKey) (val : ℚ) : ℚ :=
  min 100 ((val / (statBreakpoints stat).max) * 100)

/-- Result of the per-stat branch of `updateStatCalculator`: the status
label, the css class, and the improvement note pushed onto
`recommendations` (if any). -/
structure StatEval where
  status : String
  cls : String
  note : Option String
  deriving DecidableEq

/-- The tier-classification branch of `updateStatCalculator`
(build.py lines 601-619): `val < min` → Niedrig (note pushed);
`val < good` → Okay (note pushed unless the stat is cold or ad);
`val >= perfect` → Perfekt; otherwise Gut. -/
def evalStat (stat : StatKey) (val : ℚ) : StatEval :=
  let bp := statBreakpoints stat
  if val < bp.min then
    ⟨"❌ Niedrig", "bad", some (statTips stat).low⟩
  else if val < bp.good then
    ⟨"⚠️ Okay", "ok", if stat ≠ .cold ∧ stat ≠ .ad then some (statTips stat).ok else none⟩
  else if val ≥ bp.perfect then
    ⟨"✅ Perfekt", "good", none⟩
  else
    ⟨"👍 Gut", "good", none⟩

/-- The fixed declared stat order iterated by `updateStatCalculator`. -/
def statOrder : List StatKey := [.cdr, .rcr, .chc, .chd, .cold, .ad]

/-- The `recommendations` list accumulated by `updateStatCalculator`
over the six stats in declared order. -/
def recommendations (vals : StatKey → ℚ) : List String :=
  statOrder.filterMap fun stat => (evalStat stat (vals stat)).note

/-! ## Progress aggregator (`updateProgress`) -/

/-- A JavaScript number as produced by `(checked / total) * 100`:
either a finite value, NaN, or Infinity. -/
inductive JSNum
  | num (q : ℚ)
  | nan
  | inf
  deriving DecidableEq

/-- `Math.round` rounds half toward positive infinity: `⌊x + 1/2⌋`. -/
def jsRound (q : ℚ) : ℤ := ⌊q + 1 / 2⌋

/-- JavaScript division of the two non-negative counts: `0/0` is NaN,
`n/0` with `n > 0` is Infinity, otherwise exact division. -/
def jsDiv (a b : ℕ) : JSNum :=
  if b = 0 then (if a = 0 then .nan else .inf)
  else .num ((a : ℚ) / (b : ℚ))

/-- The `percent` computed by `updateProgress` (build.py line 299):
`Math.round((checked / total) * 100)`.  NaN and Infinity propagate
through the multiplication and `Math.round`. -/
def updateProgressPercent (checked total : ℕ) : JSNum :=
  match jsDiv checked total with
  | .num q => .num (jsRound (q * 100))
  | .nan => .nan
  | .inf => .inf

/-! ## Persistence (`saveState`, `resetAll`, stat saving) -/

/-- One checkbox control: its storage key and checked state. -/
structure Checkbox where
  key : String
  checked : Bool
  deriving DecidableEq

/-- The client page state: the checkbox controls and the
`localStorage` key-value store. -/
structure PageState where
  checkboxes : List Checkbox
  storage : String → Option String

/-- The season-scoped localStorage key `d3s{season_num}` used by
`saveState` / `loadState`. -/
def stateKey (seasonNum : String) : String := "d3s" ++ seasonNum

/-- The per-stat localStorage key `stat_{stat}` used by
`updateStatCalculator` / `loadStatCalculator`. -/
def statStorageKey (stat : String) : String := "stat_" ++ stat

/-- `saveState` (build.py lines 304-311): serialize the full
identifier→checked mapping of every checkbox (via `JSON.stringify`,
modelled by the parameter `stringify`) and store it under the
season-scoped key. -/
def saveState (seasonNum : String) (stringify : List (String × Bool) → String)
    (st : PageState) : PageState :=
  { st with storage :=
      (Function.update st.storage (stateKey seasonNum)
        (some (stringify (st.checkboxes.map fun cb => (cb.key, cb.checked))))) }

/-- `resetAll` (build.py lines 337-346): only after an affirmative
`confirm(...)` does it uncheck every checkbox and call `saveState`. -/
def resetAll (seasonNum : String) (stringify : List (String × Bool) → String)
    (confirmed : Bool) (st : PageState) : PageState :=
  if confirmed then
    saveState seasonNum stringify
      { st with checkboxes := st.checkboxes.map fun cb => { cb with checked := false } }
  else st

/-- The per-stat persistence line of `updateStatCalculator`
(build.py line 625): `localStorage.setItem('stat_' + stat, val)`. -/
def saveStatValue (stat : String) (val : String) (st : PageState) : PageState :=
  { st with storage := (Function.update st.storage (statStorageKey stat) (some val)) }

/-! ## Cross-Reference Merger (`merge_boss_data`) -/

/-- A journey task record, keeping just the fields `merge_boss_data`
reads and writes.  `α` is the type of the location records stored in
the lookup tables; they are attached unchanged. -/
structure Task (α : Type) where
  type : Option String := none
  boss : Option String := none
  keywarden : Option String := none
  boss_data : Option α := none
  keywarden_data : Option α := none

/-- Python truthiness of `task.get(key)` for a string field: `None`
and the empty string are falsy. -/
def truthy : Option String → Bool
  | none => false
  | some s => !s.isEmpty

/-- The per-task body of `merge_boss_data` (build.py lines 33-44): if
the task is a `boss_kill` with a truthy `boss` reference that resolves
in the `bosses` table, set `task['boss_data']`; likewise for
`keywarden`.  The in-place mutation is modelled as a conditional field
update; the two conditionals are independent since neither assignment
touches `type`, `boss` or `keywarden`. -/
def mergeTask {α : Type} (bosses keywardens : String → Option α) (t : Task α) : Task α :=
  { t with
    boss_data :=
      if t.type == some "boss_kill" && truthy t.boss then
        match t.boss.bind bosses with
        | some d => some d
        | none => t.boss_data
      else t.boss_data,
    keywarden_data :=
      if t.type == some "keywarden" && truthy t.keywarden then
        match t.keywarden.bind keywardens with
        | some d => some d
        | none => t.keywarden_data
      else t.keywarden_data }

/-- The chapters of the journey that `merge_boss_data` iterates
(`chapter_2`, `chapter_3`, `chapter_4`); an absent chapter contributes
an empty task list (`chapter.get('tasks', [])`). -/
structure Journey (α : Type) where
  chapter_2 : List (Task α)
  chapter_3 : List (Task α)
  chapter_4 : List (Task α)

/-- `merge_boss_data` (build.py lines 26-46). -/
def merge_boss_data {α : Type} (journey : Journey α)
    (bosses keywardens : String → Option α) : Journey α :=
  { chapter_2 := journey.chapter_2.map (mergeTask bosses keywardens)
    chapter_3 := journey.chapter_3.map (mergeTask bosses keywardens)
    chapter_4 := journey.chapter_4.map (mergeTask bosses keywardens) }

/-! ## Auxiliary data for the claims -/

/-- The slots whose rule list opens with a hard socket blocker:
mh, oh, helm, ring1, ring2, amulet guard on `socket`; chest and pants
guard on the slot-specific socket-count flag `sockets`. -/
def hardSocketSlots : List Slot :=
  [.mh, .oh, .helm, .chest, .pants, .ring1, .ring2, .amulet]

/-- The socket flag each hard-socket slot guards on: `sockets` for
chest and pants, `socket` for the rest. -/
def socketFlag (slot : Slot) (f : Flags) : Bool :=
  match slot with
  | .chest | .pants => f.sockets
  | _ => f.socket

/-- The first-rule (hard-blocker) advice of each hard-socket slot.
Slots without a hard socket rule get a dummy value that no theorem
ever reaches. -/
def hardBlockerAdvice : Slot → Advice
  | .mh => ⟨"🎁 Ramaladnis Gift für Socket nutzen! Dann schlechtesten Stat rerolled.", ""⟩
  | .oh => ⟨"🎁 Ramaladnis Gift für Socket nutzen!", ""⟩
  | .helm => ⟨"❌ Socket fehlt! → Reroll zu Socket (für Topaz = RCR!)", ""⟩
  | .chest => ⟨"❌ 3 Sockets fehlen! → Reroll!", ""⟩
  | .pants => ⟨"❌ 2 Sockets fehlen!", ""⟩
  | .ring1 => ⟨"❌ Socket fehlt! → IMMER zuerst Socket rerolled!", ""⟩
  | .ring2 => ⟨"❌ Socket fehlt! → IMMER zuerst Socket!", ""⟩
  | .amulet => ⟨"❌ Socket fehlt! → IMMER zuerst Socket für Legendary Gem!", ""⟩
  | _ => ⟨"", ""⟩

/-- The low-value flags that pre-empt the perfect rule even when every
priority stat is present: `vit`/`lph` on the two weapon slots (their
"X → Area Damage" rule fires first) and `ms` on boots (its
"Movement Speed → TR%" rule fires first).  Every other slot reaches
its perfect rule from the priority stats alone. -/
def noLowValueFlag (slot : Slot) (f : Flags) : Bool :=
  match slot with
  | .mh | .oh => !(f.vit || f.lph)
  | .boots => !f.ms
  | _ => true

end D3Guide

namespace D3Guide

/-! ## Theorems for the claims -/

/-- C7: for slot helm with socket, dex, vitality and all-resist present
and crit chance and skill absent, `getAdvice` matches the
"All Res → CHC 6%" conditional-replacement rule — not the socket
hard-blocker and not the mainstat rule — with tier none (`cls = ""`). -/
theorem helm_allres_scenario :
    getAdvice Slot.helm
      { socket := true, dex := true, chc := false, skill := false,
        vit := true, allres := true } =
      ⟨"🔄 All Res → CHC 6% rerolled", ""⟩ := by
  rfl

/-- C3: with zero checkbox controls on the page, `updateProgress`
computes `Math.round((0 / 0) * 100)`, which is NaN — the division by
zero is not guarded and the displayed percentage is the undefined
value NaN, not the 0% the specification requires. -/
theorem updateProgress_zero_controls_nan :
    updateProgressPercent 0 0 = JSNum.nan := by
  rfl

/-- C10: for ring1 and ring2, whenever socket, chc and chd are all
present the advice tier is "perfect", regardless of every other flag —
in particular even when dex, the fourth stat of the declared priority
list, is absent. -/
theorem rings_perfect_without_dex (f : Flags)
    (h1 : f.socket = true) (h2 : f.chc = true) (h3 : f.chd = true) :
    (getAdvice Slot.ring1 f).cls = "perfect" ∧
    (getAdvice Slot.ring2 f).cls = "perfect" := by
  constructor <;> simp [getAdvice, ring1GetAdvice, ring2GetAdvice, h1, h2, h3]

/-- Witness for C10 at a concrete input with dex absent. -/
theorem rings_perfect_without_dex_witness :
    (({ socket := true, chc := true, chd := true } : Flags).dex = false) ∧
    (getAdvice Slot.ring1 { socket := true, chc := true, chd := true }).cls = "perfect" ∧
    (getAdvice Slot.ring2 { socket := true, chc := true, chd := true }).cls = "perfect" :=
  ⟨rfl, rings_perfect_without_dex { socket := true, chc := true, chd := true } rfl rfl rfl⟩

/-- C2: for every slot with a hard socket requirement (mh, oh, helm,
chest, pants, ring1, ring2, amulet), any input whose socket flag
(`sockets` for chest/pants, `socket` otherwise) is false yields the
slot's hard-blocker socket recommendation with tier none, regardless
of every other flag. -/
theorem hard_blocker_priority (slot : Slot) (f : Flags)
    (hs : slot ∈ hardSocketSlots) (hf : socketFlag slot f = false) :
    getAdvice slot f = hardBlockerAdvice slot ∧ (getAdvice slot f).cls = "" := by
  have hmem : slot = Slot.mh ∨ slot = Slot.oh ∨ slot = Slot.helm ∨ slot = Slot.chest ∨
      slot = Slot.pants ∨ slot = Slot.ring1 ∨ slot = Slot.ring2 ∨ slot = Slot.amulet := by
    simpa [hardSocketSlots] using hs
  rcases hmem with rfl | rfl | rfl | rfl | rfl | rfl | rfl | rfl <;>
    simp_all [socketFlag, getAdvice, mhGetAdvice, ohGetAdvice, helmGetAdvice,
      chestGetAdvice, pantsGetAdvice, ring1GetAdvice, ring2GetAdvice,
      amuletGetAdvice, hardBlockerAdvice]

/-- Witness for C2: helm with every flag false is sent to the socket
hard blocker. -/
theorem hard_blocker_priority_witness :
    (Slot.helm ∈ hardSocketSlots ∧ socketFlag Slot.helm {} = false) ∧
    getAdvice Slot.helm {} = hardBlockerAdvice Slot.helm ∧
    (getAdvice Slot.helm {}).cls = "" :=
  ⟨⟨by decide, rfl⟩, hard_blocker_priority Slot.helm {} (by decide) rfl⟩

/-- C1 counterexample: on the mainhand, every stat of the declared
priority list (socket, dex, dmgpct, ad) can be present and yet the
advice is the "Vit → Area Damage" marginal rule with tier "good", not
"perfect" — presence of the low-value stat vit pre-empts the perfect
rule, so the perfect-state invariant fails as universally stated. -/
theorem perfect_state_counterexample :
    allPriorityPresent Slot.mh
      { socket := true, dex := true, dmgpct := true, ad := true, vit := true } = true ∧
    (getAdvice Slot.mh
      { socket := true, dex := true, dmgpct := true, ad := true, vit := true }).cls
      = "good" ∧
    (getAdvice Slot.mh
      { socket := true, dex := true, dmgpct := true, ad := true, vit := true }).cls
      ≠ "perfect" := by
  refine ⟨rfl, rfl, ?_⟩
  decide

/-- C1 (amended): if every stat in a slot's declared priority list is
present and none of the low-value flags that pre-empt the perfect rule
is set (vit/lph on mh and oh, ms on boots; no restriction on the other
ten slots), the advice tier is "perfect", regardless of all other
flags. -/
theorem perfect_state_invariant (slot : Slot) (f : Flags)
    (h1 : allPriorityPresent slot f = true)
    (h2 : noLowValueFlag slot f = true) :
    (getAdvice slot f).cls = "perfect" := by
  cases slot <;>
    simp_all [allPriorityPresent, priority, hasStat, noLowValueFlag, getAdvice,
      List.all_cons, List.all_nil,
      mhGetAdvice, ohGetAdvice, helmGetAdvice, shouldersGetAdvice, chestGetAdvice,
      glovesGetAdvice, bracersGetAdvice, beltGetAdvice, pantsGetAdvice,
      bootsGetAdvice, ring1GetAdvice, ring2GetAdvice, amuletGetAdvice]

/-- Witness for the amended C1: a mainhand with exactly the priority
stats present is rated perfect. -/
theorem perfect_state_invariant_witness :
    (allPriorityPresent Slot.mh
        { socket := true, dex := true, dmgpct := true, ad := true } = true ∧
      noLowValueFlag Slot.mh
        { socket := true, dex := true, dmgpct := true, ad := true } = true) ∧
    (getAdvice Slot.mh
      { socket := true, dex := true, dmgpct := true, ad := true }).cls = "perfect" :=
  ⟨⟨rfl, rfl⟩,
    perfect_state_invariant Slot.mh
      { socket := true, dex := true, dmgpct := true, ad := true } rfl rfl⟩

/-- C4: for every stat, a value strictly below min is tiered
"❌ Niedrig" (low); the value min itself is not tiered low; any value
at or above the perfect breakpoint is tiered "✅ Perfekt"; and
concretely cdr = 58 (min 45, good 50, perfect 55, max 80) is tiered
perfect with bar percentage 72.5, i.e. fill ratio 0.725. -/
theorem stat_tier_boundaries :
    (∀ (stat : StatKey) (val : ℚ), val < (statBreakpoints stat).min →
      (evalStat stat val).status = "❌ Niedrig") ∧
    (∀ stat : StatKey,
      (evalStat stat (statBreakpoints stat).min).status ≠ "❌ Niedrig") ∧
    (∀ (stat : StatKey) (val : ℚ), (statBreakpoints stat).perfect ≤ val →
      (evalStat stat val).status = "✅ Perfekt") ∧
    (evalStat StatKey.cdr 58).status = "✅ Perfekt" ∧
    statPercent StatKey.cdr 58 = 72.5 ∧ (72.5 : ℚ) = 0.725 * 100 := by
  refine ⟨?_, ?_, ?_, ?_, ?_, by norm_num⟩
  · intro stat val h
    simp only [evalStat]
    rw [if_pos h]
  · intro stat
    cases stat <;> decide
  · intro stat val h
    cases stat <;>
      · simp only [evalStat, statBreakpoints] at h ⊢
        split_ifs with h1 h2 <;> first | rfl | (exfalso; linarith)
  · decide
  · norm_num [statPercent, statBreakpoints]

/-- Witness for C4 at concrete inputs: cdr 44 is below min and tiered
low; cdr 45 (the min) is not low; cdr 58 is at or above perfect and
tiered perfect. -/
theorem stat_tier_boundaries_witness :
    ((44 : ℚ) < (statBreakpoints StatKey.cdr).min ∧
      (evalStat StatKey.cdr 44).status = "❌ Niedrig") ∧
    (evalStat StatKey.cdr (statBreakpoints StatKey.cdr).min).status ≠ "❌ Niedrig" ∧
    ((statBreakpoints StatKey.cdr).perfect ≤ (58 : ℚ) ∧
      (evalStat StatKey.cdr 58).status = "✅ Perfekt") :=
  ⟨⟨by norm_num [statBreakpoints],
      stat_tier_boundaries.1 StatKey.cdr 44 (by norm_num [statBreakpoints])⟩,
    stat_tier_boundaries.2.1 StatKey.cdr,
    ⟨by norm_num [statBreakpoints],
      stat_tier_boundaries.2.2.1 StatKey.cdr 58 (by norm_num [statBreakpoints])⟩⟩

/-- C5 counterexample: ad (area damage) is exempt from okay-tier notes
— at value 60, which lies in its okay tier [50, 100), no note is
generated — yet its max breakpoint (150) does not equal its good
threshold (100).  So the exempt stats are not "precisely the stats
whose max equals their good threshold". -/
theorem okay_note_exemption_counterexample :
    (statBreakpoints StatKey.ad).min ≤ (60 : ℚ) ∧
    (60 : ℚ) < (statBreakpoints StatKey.ad).good ∧
    (evalStat StatKey.ad 60).note = none ∧
    (statBreakpoints StatKey.ad).max ≠ (statBreakpoints StatKey.ad).good := by
  refine ⟨by norm_num [statBreakpoints], by norm_num [statBreakpoints], rfl, ?_⟩
  norm_num [statBreakpoints]

/-- C5 (amended): exactly two of the six stats — cold and ad — never
generate an improvement note in the okay tier (min ≤ value < good),
while the other four always do; but the exempt pair is not
characterized by max = good: cold's max (40) equals its good
threshold, whereas ad's max (150) differs from its good threshold
(100). -/
theorem okay_note_exemption :
    (∀ val : ℚ, (statBreakpoints StatKey.cold).min ≤ val →
      val < (statBreakpoints StatKey.cold).good →
      (evalStat StatKey.cold val).note = none) ∧
    (∀ val : ℚ, (statBreakpoints StatKey.ad).min ≤ val →
      val < (statBreakpoints StatKey.ad).good →
      (evalStat StatKey.ad val).note = none) ∧
    (∀ stat : StatKey, stat ≠ StatKey.cold → stat ≠ StatKey.ad →
      ∀ val : ℚ, (statBreakpoints stat).min ≤ val →
      val < (statBreakpoints stat).good →
      (evalStat stat val).note = some (statTips stat).ok) ∧
    (statBreakpoints StatKey.cold).max = (statBreakpoints StatKey.cold).good ∧
    (statBreakpoints StatKey.ad).max ≠ (statBreakpoints StatKey.ad).good := by
  refine ⟨?_, ?_, ?_, by norm_num [statBreakpoints], by norm_num [statBreakpoints]⟩
  · intro val h1 h2
    simp only [evalStat, statBreakpoints] at h1 h2 ⊢
    rw [if_neg (not_lt.mpr h1), if_pos h2]
    simp
  · intro val h1 h2
    simp only [evalStat, statBreakpoints] at h1 h2 ⊢
    rw [if_neg (not_lt.mpr h1), if_pos h2]
    simp
  · intro stat hc ha val h1 h2
    cases stat <;> simp_all only [ne_eq, not_true_eq_false, not_false_eq_true] <;>
      · simp only [evalStat, statBreakpoints] at h1 h2 ⊢
        rw [if_neg (not_lt.mpr h1), if_pos h2]
        simp [statTips]

/-- Witness for the amended C5 at concrete okay-tier values: cold 30
and ad 60 generate no note, cdr 47 generates its ok note. -/
theorem okay_note_exemption_witness :
    ((statBreakpoints StatKey.cold).min ≤ (30 : ℚ) ∧
      (30 : ℚ) < (statBreakpoints StatKey.cold).good ∧
      (evalStat StatKey.cold 30).note = none) ∧
    ((statBreakpoints StatKey.cdr).min ≤ (47 : ℚ) ∧
      (47 : ℚ) < (statBreakpoints StatKey.cdr).good ∧
      (evalStat StatKey.cdr 47).note = some (statTips StatKey.cdr).ok) :=
  ⟨⟨by norm_num [statBreakpoints], by norm_num [statBreakpoints],
      okay_note_exemption.1 30 (by norm_num [statBreakpoints])
        (by norm_num [statBreakpoints])⟩,
    ⟨by norm_num [statBreakpoints], by norm_num [statBreakpoints],
      okay_note_exemption.2.2.1 StatKey.cdr (by decide) (by decide) 47
        (by norm_num [statBreakpoints]) (by norm_num [statBreakpoints])⟩⟩

/-- C6 counterexample: the computed bar percentage is not clamped
below — for cdr at value −10 it is min(100, (−10/80)·100) = −12.5,
so the fill ratio −0.125 lies outside [0, 1]. -/
theorem fill_ratio_counterexample :
    statPercent StatKey.cdr (-10) = -12.5 ∧ statPercent StatKey.cdr (-10) < 0 := by
  constructor <;> norm_num [statPercent, statBreakpoints]

/-- C6 (amended): for every stat and value, the fill ratio
(percent / 100) equals min(1, value / max); the percentage is
monotonically non-decreasing in the value and clamped above at 100;
it is non-negative (hence the fill ratio lies in [0, 1]) for every
non-negative value; and for value ≥ max it is exactly 100.  The lower
clamp fails only for negative inputs. -/
theorem fill_ratio_props (stat : StatKey) (val : ℚ) :
    statPercent stat val / 100 = min 1 (val / (statBreakpoints stat).max) ∧
    (∀ v' : ℚ, val ≤ v' → statPercent stat val ≤ statPercent stat v') ∧
    statPercent stat val ≤ 100 ∧
    (0 ≤ val → 0 ≤ statPercent stat val) ∧
    ((statBreakpoints stat).max ≤ val → statPercent stat val = 100) := by
  have hm : 0 < (statBreakpoints stat).max := by
    cases stat <;> norm_num [statBreakpoints]
  refine ⟨?_, ?_, ?_, ?_, ?_⟩
  · rcases le_total (val / (statBreakpoints stat).max * 100) 100 with h | h
    · rw [statPercent, min_eq_right h, min_eq_right (by linarith)]
      ring
    · rw [statPercent, min_eq_left h, min_eq_left (by linarith)]
      norm_num
  · intro v' hv
    simp only [statPercent]
    exact min_le_min le_rfl
      (mul_le_mul_of_nonneg_right ((div_le_div_iff_of_pos_right hm).mpr hv) (by norm_num))
  · exact min_le_left _ _
  · intro h0
    exact le_min (by norm_num) (mul_nonneg (div_nonneg h0 hm.le) (by norm_num))
  · intro h
    have h1 : 1 ≤ val / (statBreakpoints stat).max := (one_le_div hm).mpr h
    have h2 : (100 : ℚ) ≤ val / (statBreakpoints stat).max * 100 := by nlinarith
    simp only [statPercent]
    exact min_eq_left h2

/-- Witness for the amended C6 at cdr: equality of the fill ratio at
58, monotonicity from 58 to 60, and the exact 100% at 90 ≥ max. -/
theorem fill_ratio_props_witness :
    (statPercent StatKey.cdr 58 / 100 =
      min 1 ((58 : ℚ) / (statBreakpoints StatKey.cdr).max)) ∧
    ((58 : ℚ) ≤ 60 ∧ statPercent StatKey.cdr 58 ≤ statPercent StatKey.cdr 60) ∧
    ((0 : ℚ) ≤ 58 ∧ 0 ≤ statPercent StatKey.cdr 58) ∧
    ((statBreakpoints StatKey.cdr).max ≤ (90 : ℚ) ∧
      statPercent StatKey.cdr 90 = 100) :=
  ⟨(fill_ratio_props StatKey.cdr 58).1,
    ⟨by norm_num, (fill_ratio_props StatKey.cdr 58).2.1 60 (by norm_num)⟩,
    ⟨by norm_num, (fill_ratio_props StatKey.cdr 58).2.2.2.1 (by norm_num)⟩,
    ⟨by norm_num [statBreakpoints],
      (fill_ratio_props StatKey.cdr 90).2.2.2.2 (by norm_num [statBreakpoints])⟩⟩

/-- `mergeTask` does not change the reference fields it reads, so a
second pass takes the same branches and overwrites with the same
values. -/
lemma mergeTask_idem {α : Type} (bosses keywardens : String → Option α) (t : Task α) :
    mergeTask bosses keywardens (mergeTask bosses keywardens t) =
      mergeTask bosses keywardens t := by
  cases t with
  | mk ty bo kw bd kd =>
    simp only [mergeTask]
    cases h1 : (ty == some "boss_kill" && truthy bo) <;>
      cases h2 : (ty == some "keywarden" && truthy kw) <;>
        simp only [h1, h2, if_true, if_false, Bool.false_eq_true, if_neg, ite_false,
          ite_true] <;>
        cases hb : bo.bind bosses <;> cases hk : kw.bind keywardens <;>
          simp [hb, hk]

/-- C8: the Cross-Reference Merger is idempotent — merging twice
attaches the same boss/keywarden data as merging once — and a task
whose boss (resp. keywarden) reference is falsy or does not resolve in
the lookup table keeps its attached data unchanged; being a total
function, it never raises an error. -/
theorem merge_boss_data_idempotent_and_skips (α : Type)
    (bosses keywardens : String → Option α) :
    (∀ j : Journey α,
      merge_boss_data (merge_boss_data j bosses keywardens) bosses keywardens =
        merge_boss_data j bosses keywardens) ∧
    (∀ t : Task α, (truthy t.boss = false ∨ t.boss.bind bosses = none) →
      (mergeTask bosses keywardens t).boss_data = t.boss_data) ∧
    (∀ t : Task α, (truthy t.keywarden = false ∨ t.keywarden.bind keywardens = none) →
      (mergeTask bosses keywardens t).keywarden_data = t.keywarden_data) := by
  refine ⟨?_, ?_, ?_⟩
  · intro j
    simp [merge_boss_data, List.map_map, Function.comp_def, mergeTask_idem]
  · intro t ht
    rcases ht with h | h <;> simp [mergeTask, h]
  · intro t ht
    rcases ht with h | h <;> simp [mergeTask, h]

/-- Witness for C8: with empty lookup tables, a boss-kill task whose
reference does not resolve keeps `boss_data = none`, and the merge of
a one-task journey is idempotent. -/
theorem merge_boss_data_idempotent_and_skips_witness :
    ((truthy (Task.boss (α := String) ⟨some "boss_kill", some "x", none, none, none⟩) = false ∨
        (Task.boss (α := String) ⟨some "boss_kill", some "x", none, none, none⟩).bind
          (fun _ => (none : Option String)) = none) ∧
      (mergeTask (fun _ => (none : Option String)) (fun _ => none)
        (⟨some "boss_kill", some "x", none, none, none⟩ : Task String)).boss_data =
        (⟨some "boss_kill", some "x", none, none, none⟩ : Task String).boss_data) ∧
    merge_boss_data
      (merge_boss_data (⟨[⟨some "boss_kill", some "x", none, none, none⟩], [], []⟩ :
          Journey String) (fun _ => (none : Option String)) (fun _ => none))
      (fun _ => (none : Option String)) (fun _ => none) =
    merge_boss_data (⟨[⟨some "boss_kill", some "x", none, none, none⟩], [], []⟩ :
        Journey String) (fun _ => (none : Option String)) (fun _ => none) :=
  ⟨⟨Or.inr rfl,
      (merge_boss_data_idempotent_and_skips String (fun _ => none) (fun _ => none)).2.1
        ⟨some "boss_kill", some "x", none, none, none⟩ (Or.inr rfl)⟩,
    (merge_boss_data_idempotent_and_skips String (fun _ => none) (fun _ => none)).1
      ⟨[⟨some "boss_kill", some "x", none, none, none⟩], [], []⟩⟩

/-- The season-scoped checkbox key (`d3s…`) is never a per-stat key
(`stat_…`): their first characters differ. -/
lemma stateKey_ne_statStorageKey (n s : String) : stateKey n ≠ statStorageKey s := by
  intro h
  have h2 : (stateKey n).data = (statStorageKey s).data := congrArg String.data h
  rw [stateKey, statStorageKey, String.data_append, String.data_append] at h2
  have e1 : "d3s".data = ['d', '3', 's'] := rfl
  have e2 : "stat_".data = ['s', 't', 'a', 't', '_'] := rfl
  rw [e1, e2] at h2
  simp at h2

/-- C9: `resetAll` is a no-op without an affirmative confirmation; on
confirmation it sets every checkbox to unchecked, re-persists the full
identifier→false mapping under the season key, and leaves every other
storage key — in particular each persisted per-stat calculator value
`stat_…` — unchanged. -/
theorem resetAll_spec (seasonNum : String)
    (stringify : List (String × Bool) → String) (st : PageState) :
    (resetAll seasonNum stringify false st = st) ∧
    (∀ cb ∈ (resetAll seasonNum stringify true st).checkboxes, cb.checked = false) ∧
    ((resetAll seasonNum stringify true st).storage (stateKey seasonNum) =
      some (stringify (st.checkboxes.map fun cb => (cb.key, false)))) ∧
    (∀ k : String, k ≠ stateKey seasonNum →
      (resetAll seasonNum stringify true st).storage k = st.storage k) ∧
    (∀ s : String, (resetAll seasonNum stringify true st).storage (statStorageKey s) =
      st.storage (statStorageKey s)) := by
  refine ⟨by simp [resetAll], ?_, ?_, ?_, ?_⟩
  · intro cb hcb
    simp only [resetAll, if_true, saveState, List.mem_map] at hcb
    obtain ⟨cb0, _, rfl⟩ := hcb
    rfl
  · simp [resetAll, saveState, Function.update_same, List.map_map, Function.comp_def]
  · intro k hk
    simp [resetAll, saveState, Function.update_noteq hk]
  · intro s
    simp [resetAll, saveState,
      Function.update_noteq (Ne.symm (stateKey_ne_statStorageKey seasonNum s))]

/-- Witness for C9 at a concrete state: season "34", one checked
checkbox, empty storage returning "7" only under `stat_cdr`. -/
theorem resetAll_spec_witness :
    (resetAll "34" (fun _ => "") false
        ⟨[⟨"t1", true⟩], fun k => if k = "stat_cdr" then some "7" else none⟩ =
      ⟨[⟨"t1", true⟩], fun k => if k = "stat_cdr" then some "7" else none⟩) ∧
    ((resetAll "34" (fun _ => "") true
        ⟨[⟨"t1", true⟩], fun k => if k = "stat_cdr" then some "7" else none⟩).storage
        (statStorageKey "cdr") =
      (⟨[⟨"t1", true⟩], fun k => if k = "stat_cdr" then some "7" else none⟩ :
        PageState).storage (statStorageKey "cdr")) :=
  ⟨(resetAll_spec "34" (fun _ => "")
      ⟨[⟨"t1", true⟩], fun k => if k = "stat_cdr" then some "7" else none⟩).1,
    (resetAll_spec "34" (fun _ => "")
      ⟨[⟨"t1", true⟩], fun k => if k = "stat_cdr" then some "7" else none⟩).2.2.2.2 "cdr"⟩

end D3Guide
